import Mathlib

/-!
Shallow embedding of the DNSE streaming tick client
(`src/connector/dnse/test_cli.py` and `src/connector/dnse/stream.py`):
the reconnection backoff loop of `MQTTClient.on_disconnect`, the message
validation of `MQTTClient.on_message`, the CSV sink `append_tick_to_csv`,
the subscribe logic of `MQTTClient.on_connect`, the authentication helpers
`Auth._get_token` / `dnse_auth`, the topics validation of `run`, and the
credentials loader `yaml_creds`.
-/

set_option maxRecDepth 10000

namespace VnstockDnse

/-! ## Reconnection backoff (`Config.__init__`, `MQTTClient.on_disconnect`) -/

/-- Backoff parameters, from `Config.__init__` (test_cli.py lines 126-129). -/
structure BackoffConfig where
  FIRST_RECONNECT_DELAY : Nat
  RECONNECT_RATE : Nat
  MAX_RECONNECT_COUNT : Nat
  MAX_RECONNECT_DELAY : Nat
deriving DecidableEq, Repr

/-- The default configuration values set in `Config.__init__`. -/
def defaultBackoff : BackoffConfig :=
  { FIRST_RECONNECT_DELAY := 1
    RECONNECT_RATE := 2
    MAX_RECONNECT_COUNT := 12
    MAX_RECONNECT_DELAY := 60 }

/-- Observable actions of `on_disconnect`.  `exitProcess` is in the action
vocabulary so that "does not call process exit" is statable; the source body
never performs it. -/
inductive DisAction where
  | sleep (seconds : Nat)
  | logInfo
  | logError
  | exitProcess
deriving DecidableEq, Repr

/-- The `while reconnect_count < MAX_RECONNECT_COUNT` loop of
`on_disconnect`.  `fuel` is the number of remaining iterations
(`MAX_RECONNECT_COUNT - reconnect_count`), `count` the current
`reconnect_count`, `delay` the current `reconnect_delay`; `ok n` tells
whether the reconnect attempt made with `reconnect_count = n` succeeds
(`client.reconnect()` not raising).  Returns the emitted actions and whether
the loop returned early on a successful reconnect.  On exhaustion the final
`logging.info("Reconnect failed after …")` is emitted and the caller sets
`FLAG_EXIT`. -/
def reconnectLoop (cfg : BackoffConfig) (ok : Nat → Bool) :
    Nat → Nat → Nat → List DisAction × Bool
  | 0, _, _ => ([DisAction.logInfo], false)
  | fuel + 1, count, delay =>
    if ok count then
      ([DisAction.logInfo, DisAction.sleep delay, DisAction.logInfo], true)
    else
      let rest := reconnectLoop cfg ok fuel (count + 1)
        (min (delay * cfg.RECONNECT_RATE) cfg.MAX_RECONNECT_DELAY)
      (DisAction.logInfo :: DisAction.sleep delay :: DisAction.logError :: rest.1, rest.2)

/-- Result of one `on_disconnect` invocation: the action trace and whether a
reconnect attempt succeeded (if not, the invocation ends with
`self.FLAG_EXIT = True`). -/
structure DisconnectResult where
  actions : List DisAction
  reconnected : Bool
deriving DecidableEq, Repr

/-- Model of `MQTTClient.on_disconnect` (test_cli.py lines 158-176): the entry
`logging.info` followed by the reconnection loop started with
`reconnect_count = 0` and `reconnect_delay = FIRST_RECONNECT_DELAY`
(both are local variables, freshly initialized on every invocation). -/
def on_disconnect (cfg : BackoffConfig) (ok : Nat → Bool) : DisconnectResult :=
  let r := reconnectLoop cfg ok cfg.MAX_RECONNECT_COUNT 0 cfg.FIRST_RECONNECT_DELAY
  ⟨DisAction.logInfo :: r.1, r.2⟩

/-- The `FLAG_EXIT` attribute is set by an invocation exactly when its loop exhausted all
attempts. -/
def DisconnectResult.flagExitSet (r : DisconnectResult) : Bool := !r.reconnected

/-- The sequence of sleep durations in an action trace. -/
def sleepsOf (acts : List DisAction) : List Nat :=
  acts.filterMap fun a =>
    match a with
    | DisAction.sleep n => some n
    | _ => none

/-- Successive `on_disconnect` invocations of one `MQTTClient`.  The only
state an invocation can write that survives it is `FLAG_EXIT` (set, never
cleared); `reconnect_count` and `reconnect_delay` are locals.  Returns the
per-event results and the final `FLAG_EXIT`. -/
def disconnectSession (cfg : BackoffConfig) :
    List (Nat → Bool) → Bool → List DisconnectResult × Bool
  | [], flag => ([], flag)
  | ok :: rest, flag =>
    let r := on_disconnect cfg ok
    let s := disconnectSession cfg rest (flag || r.flagExitSet)
    (r :: s.1, s.2)

/-! ### Lemmas about the backoff loop -/

theorem reconnectLoop_congr (cfg : BackoffConfig) (ok ok' : Nat → Bool)
    (fuel count delay : Nat)
    (h : ∀ n, count ≤ n → n < count + fuel → ok n = ok' n) :
    reconnectLoop cfg ok fuel count delay = reconnectLoop cfg ok' fuel count delay := by
  induction fuel generalizing count delay with
  | zero => rfl
  | succ f ih =>
    simp only [reconnectLoop]
    rw [h count (le_refl _) (by omega)]
    cases h2 : ok' count with
    | true => simp
    | false =>
      simp only [Bool.false_eq_true, if_false]
      rw [ih (count + 1) _ (fun n h3 h4 => h n (by omega) (by omega))]

theorem reconnectLoop_success_iff (cfg : BackoffConfig) (ok : Nat → Bool)
    (fuel count delay : Nat) :
    (reconnectLoop cfg ok fuel count delay).2 = true ↔
      ∃ n, count ≤ n ∧ n < count + fuel ∧ ok n = true := by
  induction fuel generalizing count delay with
  | zero =>
    simp only [reconnectLoop]
    constructor
    · intro h; exact absurd h (by simp)
    · rintro ⟨n, h1, h2, _⟩; omega
  | succ f ih =>
    simp only [reconnectLoop]
    cases h2 : ok count with
    | true =>
      simp only [if_true]
      constructor
      · intro _; exact ⟨count, le_refl _, by omega, h2⟩
      · intro _; trivial
    | false =>
      simp only [Bool.false_eq_true, if_false]
      rw [ih (count + 1)]
      constructor
      · rintro ⟨n, h3, h4, h5⟩; exact ⟨n, by omega, by omega, h5⟩
      · rintro ⟨n, h3, h4, h5⟩
        refine ⟨n, ?_, by omega, h5⟩
        rcases Nat.eq_or_lt_of_le h3 with h6 | h6
        · subst h6; rw [h2] at h5; exact absurd h5 (by simp)
        · omega

theorem on_disconnect_flag_iff (cfg : BackoffConfig) (ok : Nat → Bool) :
    (on_disconnect cfg ok).flagExitSet = true ↔
      ∀ n, n < cfg.MAX_RECONNECT_COUNT → ok n = false := by
  simp only [on_disconnect, DisconnectResult.flagExitSet, Bool.not_eq_true']
  rw [← Bool.not_eq_true, reconnectLoop_success_iff]
  constructor
  · intro h n hn
    cases h2 : ok n with
    | true => exact absurd ⟨n, Nat.zero_le n, by omega, h2⟩ h
    | false => rfl
  · rintro h ⟨n, _, hn, h2⟩
    rw [h n (by omega)] at h2
    exact absurd h2 (by simp)

/-- C1: with the default configuration and every reconnect attempt failing,
the handler sleeps 1, 2, 4, 8, 16, 32, 60, 60, 60, 60, 60, 60 (each delay is
the previous one times the rate, clamped to the ceiling), sets `FLAG_EXIT`
(Failed) only when all 12 attempts have failed, and never calls process
exit. -/
theorem C1_backoff_defaults (ok : Nat → Bool)
    (h : ∀ n, n < 12 → ok n = false) :
    sleepsOf (on_disconnect defaultBackoff ok).actions =
      [1, 2, 4, 8, 16, 32, 60, 60, 60, 60, 60, 60] ∧
    (on_disconnect defaultBackoff ok).flagExitSet = true ∧
    DisAction.exitProcess ∉ (on_disconnect defaultBackoff ok).actions ∧
    (∀ g : Nat → Bool, (∃ n, n < 12 ∧ g n = true) →
      (on_disconnect defaultBackoff g).flagExitSet = false) := by
  have hsame : on_disconnect defaultBackoff ok =
      on_disconnect defaultBackoff (fun _ => false) := by
    simp only [on_disconnect]
    rw [show defaultBackoff.MAX_RECONNECT_COUNT = 12 from rfl,
      show defaultBackoff.FIRST_RECONNECT_DELAY = 1 from rfl,
      reconnectLoop_congr defaultBackoff ok (fun _ => false) 12 0 1
        (fun n _ h2 => h n (by omega))]
  refine ⟨by rw [hsame]; decide, by rw [hsame]; decide, by rw [hsame]; decide, ?_⟩
  intro g hg
  cases h2 : (on_disconnect defaultBackoff g).flagExitSet with
  | false => rfl
  | true =>
    obtain ⟨n, hn, hgn⟩ := hg
    rw [(on_disconnect_flag_iff defaultBackoff g).mp h2 n hn] at hgn
    exact absurd hgn (by simp)

/-- Witness for C1 at the concrete always-failing attempt function. -/
theorem C1_backoff_defaults_witness :
    sleepsOf (on_disconnect defaultBackoff (fun _ => false)).actions =
      [1, 2, 4, 8, 16, 32, 60, 60, 60, 60, 60, 60] ∧
    (on_disconnect defaultBackoff (fun _ => false)).flagExitSet = true :=
  ⟨(C1_backoff_defaults (fun _ => false) (fun _ _ => rfl)).1,
   (C1_backoff_defaults (fun _ => false) (fun _ _ => rfl)).2.1⟩

theorem disconnectSession_results (cfg : BackoffConfig)
    (events : List (Nat → Bool)) (flag : Bool) :
    (disconnectSession cfg events flag).1 = events.map (on_disconnect cfg) := by
  induction events generalizing flag with
  | nil => rfl
  | cons ok rest ih => simp only [disconnectSession, ih, List.map]

/-- C6: each disconnect event's reconnection loop starts fresh — after an
event whose loop succeeded (state back to Connected), the next event's trace
is exactly `on_disconnect` run with counter 0 and the configured initial
delay, and its first sleep is the initial delay; nothing is carried over. -/
theorem C6_counter_reset (cfg : BackoffConfig) (events : List (Nat → Bool))
    (flag : Bool) (i : Nat) (hi : i + 1 < events.length)
    (hsucc : (on_disconnect cfg (events.get ⟨i, by omega⟩)).reconnected = true)
    (hpos : 0 < cfg.MAX_RECONNECT_COUNT) :
    (disconnectSession cfg events flag).1.get
        ⟨i + 1, by rw [disconnectSession_results]; simpa using hi⟩ =
      on_disconnect cfg (events.get ⟨i + 1, hi⟩) ∧
    (sleepsOf (on_disconnect cfg (events.get ⟨i + 1, hi⟩)).actions).head? =
      some cfg.FIRST_RECONNECT_DELAY := by
  constructor
  · have h := disconnectSession_results cfg events flag
    simp only [List.get_eq_getElem] at *
    simp [h]
  · obtain ⟨f, hf⟩ : ∃ f, cfg.MAX_RECONNECT_COUNT = f + 1 :=
      ⟨cfg.MAX_RECONNECT_COUNT - 1, by omega⟩
    simp only [on_disconnect, hf, reconnectLoop]
    cases h2 : (events.get ⟨i + 1, hi⟩) 0 with
    | true => simp [sleepsOf]
    | false => simp [sleepsOf]

/-- Witness for C6: two disconnect events, the first succeeding on its first
attempt, with the default configuration. -/
theorem C6_counter_reset_witness :
    (disconnectSession defaultBackoff [fun _ => true, fun _ => false] false).1.get
        ⟨1, by rw [disconnectSession_results]; decide⟩ =
      on_disconnect defaultBackoff
        (([fun _ => true, fun _ => false] : List (Nat → Bool)).get ⟨1, by decide⟩) ∧
    (sleepsOf (on_disconnect defaultBackoff
        (([fun _ => true, fun _ => false] : List (Nat → Bool)).get ⟨1, by decide⟩)).actions).head? =
      some defaultBackoff.FIRST_RECONNECT_DELAY :=
  C6_counter_reset defaultBackoff [fun _ => true, fun _ => false] false 0
    (by decide) (by decide) (by decide)

/-! ## Message payloads (`json.loads` results) -/

/-- A field value of a decoded JSON payload.  `jlist` stands for any
container value (JSON array/object nested as a field value); the callback
code never inspects a container's contents — `float()` on one raises
`TypeError` just as on `None`. -/
inductive JVal where
  | jstr (s : String)
  | jnum (q : Rat)
  | jbool (b : Bool)
  | jnull
  | jlist
deriving DecidableEq, Repr

/-- A decoded top-level JSON document, the possible results of
`json.loads(msg.payload.decode())`. -/
inductive JTop where
  | jobj (fields : List (String × JVal))
  | jtstr (s : String)
  | jtnum (q : Rat)
  | jtbool (b : Bool)
  | jtnull
  | jtarr (elems : List JVal)
deriving DecidableEq, Repr

/-- Python exceptions observable in the embedded fragment. -/
inductive PyErr where
  | jsonDecodeError
  | typeError
  | valueError
  | keyError
  | httpError (status : Nat)
deriving DecidableEq, Repr

/-- First binding of a key in an association list (Python `d[k]` on a dict,
whose keys are unique). -/
def assocLookup {α : Type} (k : String) : List (String × α) → Option α
  | [] => none
  | kv :: rest => if kv.1 = k then some kv.2 else assocLookup k rest

/-- Python `d[k] = v` on a dict: replace in place when the key is bound,
append otherwise. -/
def assocSet (k : String) (v : JVal) (fs : List (String × JVal)) :
    List (String × JVal) :=
  if fs.any (fun kv => kv.1 = k) then
    fs.map (fun kv => if kv.1 = k then (kv.1, v) else kv)
  else fs ++ [(k, v)]

/-! ## Python `float()` coercion -/

def isDigitChar (c : Char) : Bool := 48 ≤ c.toNat && c.toNat ≤ 57

def isSpaceChar (c : Char) : Bool := c = ' ' || c = '\t' || c = '\n' || c = '\r'

def trimChars (cs : List Char) : List Char :=
  ((cs.dropWhile isSpaceChar).reverse.dropWhile isSpaceChar).reverse

def digitsToNat (ds : List Char) : Nat :=
  ds.foldl (fun acc c => acc * 10 + (c.toNat - 48)) 0

/-- Unsigned decimal literal: digits with an optional fractional part
(`"12"`, `"12.5"`, `"12."`, `".5"`).  This models the common core of the
Python `float(str)` grammar; exponent and `inf`/`nan` forms are omitted from
the model. -/
def parseUnsigned (cs : List Char) : Option Rat :=
  let ip := cs.takeWhile isDigitChar
  let rest := cs.dropWhile isDigitChar
  match rest with
  | [] => if ip.isEmpty then none else some (mkRat (digitsToNat ip) 1)
  | '.' :: rest2 =>
    let fp := rest2.takeWhile isDigitChar
    let rest3 := rest2.dropWhile isDigitChar
    if ip.isEmpty && fp.isEmpty then none
    else if rest3.isEmpty then
      some (mkRat (digitsToNat ip * 10 ^ fp.length + digitsToNat fp) (10 ^ fp.length))
    else none
  | _ => none

/-- Python `float(s)` for a string: strip surrounding whitespace, optional
sign, decimal literal; `none` models `ValueError`. -/
def parsePyFloat (s : String) : Option Rat :=
  match trimChars s.toList with
  | '-' :: rest => (parseUnsigned rest).map (fun q => -q)
  | '+' :: rest => parseUnsigned rest
  | cs => parseUnsigned cs

/-- Python `float(v)` on a payload field value: numbers and booleans
coerce, strings parse or raise `ValueError`, `None` and container values
raise `TypeError`. -/
def pyFloat : JVal → Except PyErr Rat
  | JVal.jnum q => Except.ok q
  | JVal.jbool b => Except.ok (if b then 1 else 0)
  | JVal.jstr s =>
    match parsePyFloat s with
    | some q => Except.ok q
    | none => Except.error PyErr.valueError
  | JVal.jnull => Except.error PyErr.typeError
  | JVal.jlist => Except.error PyErr.typeError

/-! ## Python `in`, subscription on the decoded payload -/

def startsWithChars : List Char → List Char → Bool
  | [], _ => true
  | _ :: _, [] => false
  | p :: ps, c :: cs => p = c && startsWithChars ps cs

def occursInChars (pat : List Char) : List Char → Bool
  | [] => pat.isEmpty
  | c :: cs => startsWithChars pat (c :: cs) || occursInChars pat cs

/-- Python `k in payload`: key test on a dict, substring test on a string,
membership on a list; `TypeError` on non-iterable scalars. -/
def pyContains (t : JTop) (k : String) : Except PyErr Bool :=
  match t with
  | JTop.jobj fs => Except.ok (fs.any (fun kv => kv.1 = k))
  | JTop.jtstr s => Except.ok (occursInChars k.toList s.toList)
  | JTop.jtarr xs => Except.ok (xs.contains (JVal.jstr k))
  | JTop.jtnum _ => Except.error PyErr.typeError
  | JTop.jtbool _ => Except.error PyErr.typeError
  | JTop.jtnull => Except.error PyErr.typeError

/-- Python `payload[k]` for a string key: dict lookup (`KeyError` when
absent), `TypeError` on strings/lists (string indices must be integers) and
on non-subscriptable scalars. -/
def pyGetItemStr (t : JTop) (k : String) : Except PyErr JVal :=
  match t with
  | JTop.jobj fs =>
    match assocLookup k fs with
    | some v => Except.ok v
    | none => Except.error PyErr.keyError
  | _ => Except.error PyErr.typeError

/-- Python `payload[k] = v` for a string key: only dicts support item
assignment. -/
def pySetItemStr (t : JTop) (k : String) (v : JVal) : Except PyErr JTop :=
  match t with
  | JTop.jobj fs => Except.ok (JTop.jobj (assocSet k v fs))
  | _ => Except.error PyErr.typeError

/-! ## CSV sink (`append_tick_to_csv`) -/

/-- The `fieldnames` list of `append_tick_to_csv`. -/
def fieldnames : List String :=
  ["symbol", "matchPrice", "matchQtty", "time", "side", "session", "low",
   "open", "lastUpdated", "volume", "close", "type", "high"]

/-- A line of the sink file: the header, or one record row holding for each
of the 13 field names the payload's value (`none` models `DictWriter`'s
`restval`, the empty cell, for a missing key). -/
inductive CsvLine where
  | header
  | record (cells : List (Option JVal))
deriving DecidableEq, Repr

def isRecordLine : CsvLine → Bool
  | CsvLine.record _ => true
  | CsvLine.header => false

def recordCount (ls : List CsvLine) : Nat := (ls.filter isRecordLine).length

def headerCount (ls : List CsvLine) : Nat :=
  (ls.filter (fun l => !isRecordLine l)).length

/-- The record row `DictWriter.writerow` produces for a dict. -/
def rowOf (d : List (String × JVal)) : CsvLine :=
  CsvLine.record (fieldnames.map (fun f => assocLookup f d))

/-- All keys of the dict are among the CSV `fieldnames`
(`DictWriter` raises `ValueError` otherwise). -/
def keysOk (d : List (String × JVal)) : Bool :=
  d.all (fun kv => fieldnames.contains kv.1)

/-- The file contents after `open(filename, 'a')` and the
`writer.writeheader()` guarded by `if not file_exists`: an absent file
(`none`) is created holding just the header. -/
def csvBase (file : Option (List CsvLine)) : List CsvLine :=
  match file with
  | none => [CsvLine.header]
  | some ls => ls

/-- Model of `append_tick_to_csv(tick_data, filename)` (test_cli.py lines 17-24):
the sink file is `none` when absent.  Opening in append mode creates the
file; the header is written exactly when the file did not exist, before the
row; `DictWriter.writerow` then appends the record, or raises `ValueError`
when the dict has a key outside `fieldnames` (leaving the freshly written
header in place). -/
def append_tick_to_csv (d : List (String × JVal))
    (file : Option (List CsvLine)) : List CsvLine × Option PyErr :=
  if keysOk d then (csvBase file ++ [rowOf d], none)
  else (csvBase file, some PyErr.valueError)

/-- Number of record rows in the sink (an absent file holds none). -/
def recordsOf (file : Option (List CsvLine)) : Nat := recordCount (file.getD [])

/-- Repeated `append_tick_to_csv` calls against the same filename. -/
def appendSeq (ds : List (List (String × JVal)))
    (file : Option (List CsvLine)) : Option (List CsvLine) :=
  ds.foldl (fun f d => some (append_tick_to_csv d f).1) file

/-! ## `MQTTClient.on_message` -/

/-- Outcome of one `on_message` invocation: the sink file afterwards, the
`logging.error` and `logging.debug` calls made, and the exception escaping
the callback, if any. -/
structure MsgResult where
  file : Option (List CsvLine)
  errorLogs : Nat
  debugLogs : Nat
  raised : Option PyErr
deriving DecidableEq, Repr

/-- The `except ValueError` handler around the coercion/append block:
a `ValueError` is caught and logged at error level, anything else
escapes. -/
def catchValueError (file : Option (List CsvLine)) (e : PyErr) : MsgResult :=
  if e = PyErr.valueError then ⟨file, 1, 0, none⟩ else ⟨file, 0, 0, some e⟩

/-- The `try` block of `on_message`: coerce `payload['matchPrice']` and
`payload['matchQtty']` with `float` (each assignment evaluates the lookup,
the coercion, then stores back), append the updated payload to the CSV, and
log the accepted record at debug level. -/
def messageTryBody (file : Option (List CsvLine)) (payload : JTop) : MsgResult :=
  match pyGetItemStr payload "matchPrice" with
  | Except.error e => catchValueError file e
  | Except.ok v1 =>
    match pyFloat v1 with
    | Except.error e => catchValueError file e
    | Except.ok q1 =>
      match pySetItemStr payload "matchPrice" (JVal.jnum q1) with
      | Except.error e => catchValueError file e
      | Except.ok p1 =>
        match pyGetItemStr p1 "matchQtty" with
        | Except.error e => catchValueError file e
        | Except.ok v2 =>
          match pyFloat v2 with
          | Except.error e => catchValueError file e
          | Except.ok q2 =>
            match pySetItemStr p1 "matchQtty" (JVal.jnum q2) with
            | Except.error e => catchValueError file e
            | Except.ok p2 =>
              match p2 with
              | JTop.jobj fs =>
                match append_tick_to_csv fs file with
                | (lines, some e) => catchValueError (some lines) e
                | (lines, none) => ⟨some lines, 0, 1, none⟩
              | _ => catchValueError file PyErr.typeError

/-- Model of `MQTTClient.on_message` (test_cli.py lines 178-192).  `decoded` is the
outcome of `json.loads(msg.payload.decode())` on the inbound bytes — an
error when the payload is undecodable.  That call and the two `in` checks
sit outside the `try`, so their exceptions escape; when either key test is
false the message is skipped with no logging; otherwise the guarded
coercion/append block runs. -/
def on_message (file : Option (List CsvLine))
    (decoded : Except PyErr JTop) : MsgResult :=
  match decoded with
  | Except.error e => ⟨file, 0, 0, some e⟩
  | Except.ok payload =>
    match pyContains payload "matchPrice" with
    | Except.error e => ⟨file, 0, 0, some e⟩
    | Except.ok false => ⟨file, 0, 0, none⟩
    | Except.ok true =>
      match pyContains payload "matchQtty" with
      | Except.error e => ⟨file, 0, 0, some e⟩
      | Except.ok false => ⟨file, 0, 0, none⟩
      | Except.ok true => messageTryBody file payload

/-- Field values on which `float()` raises at most `ValueError` (strings,
numbers, booleans) — the values for which the `except ValueError` handler
suffices. -/
def floatSafe : JVal → Bool
  | JVal.jnull => false
  | JVal.jlist => false
  | _ => true

def optFloatSafe : Option JVal → Bool
  | none => true
  | some v => floatSafe v

/-- The messages `on_message` accepts into the sink: payload decoded to a
dict, both `matchPrice` and `matchQtty` bound, both values coercible by
`float`, and the updated dict's keys all among the CSV `fieldnames`. -/
def validTick : Except PyErr JTop → Bool
  | Except.ok (JTop.jobj fs) =>
    match assocLookup "matchPrice" fs, assocLookup "matchQtty" fs with
    | some v1, some v2 =>
      match pyFloat v1 with
      | Except.ok q1 =>
        match pyFloat v2 with
        | Except.ok q2 =>
          keysOk (assocSet "matchQtty" (JVal.jnum q2)
            (assocSet "matchPrice" (JVal.jnum q1) fs))
        | Except.error _ => false
      | Except.error _ => false
    | _, _ => false
  | _ => false

/-! ### Association-list lemmas -/

theorem assoc_any_eq_isSome {α : Type} (k : String) (fs : List (String × α)) :
    (fs.any (fun kv => kv.1 = k)) = (assocLookup k fs).isSome := by
  induction fs with
  | nil => rfl
  | cons kv rest ih =>
    simp only [List.any_cons, assocLookup]
    by_cases h : kv.1 = k
    · simp [h]
    · simp [h, ih]

theorem assocLookup_append_ne {α : Type} (k k' : String) (v : α)
    (fs : List (String × α)) (h : k ≠ k') :
    assocLookup k (fs ++ [(k', v)]) = assocLookup k fs := by
  induction fs with
  | nil =>
    simp only [List.nil_append, assocLookup]
    rw [if_neg (fun h2 => h h2.symm)]
  | cons kv rest ih =>
    simp only [List.cons_append, assocLookup]
    by_cases h2 : kv.1 = k <;> simp [h2, ih]

theorem assocLookup_append_self {α : Type} (k : String) (v : α)
    (fs : List (String × α)) (hnone : assocLookup k fs = none) :
    assocLookup k (fs ++ [(k, v)]) = some v := by
  induction fs with
  | nil => simp [assocLookup]
  | cons kv rest ih =>
    simp only [assocLookup] at hnone
    by_cases h2 : kv.1 = k
    · rw [if_pos h2] at hnone; exact absurd hnone (by simp)
    · rw [if_neg h2] at hnone
      simp only [List.cons_append, assocLookup]
      rw [if_neg h2]
      exact ih hnone

theorem assocLookup_map_set_ne (k k' : String) (v : JVal)
    (fs : List (String × JVal)) (h : k ≠ k') :
    assocLookup k (fs.map (fun kv => if kv.1 = k' then (kv.1, v) else kv)) =
      assocLookup k fs := by
  induction fs with
  | nil => rfl
  | cons kv rest ih =>
    simp only [List.map_cons]
    by_cases h2 : kv.1 = k'
    · have h3 : ¬(kv.1 = k) := fun h4 => h (h4 ▸ h2)
      rw [if_pos h2]
      simp only [assocLookup]
      rw [if_neg h3, if_neg h3]
      exact ih
    · simp only [if_neg h2, assocLookup]
      by_cases h3 : kv.1 = k <;> simp [h3, ih]

theorem assocLookup_map_set_self (k : String) (v : JVal)
    (fs : List (String × JVal)) :
    (fs.any (fun kv => kv.1 = k)) = true →
    assocLookup k (fs.map (fun kv => if kv.1 = k then (kv.1, v) else kv)) =
      some v := by
  induction fs with
  | nil => intro h; exact absurd h (by simp)
  | cons kv rest ih =>
    intro h
    simp only [List.map_cons]
    by_cases h2 : kv.1 = k
    · simp [h2, assocLookup]
    · simp only [if_neg h2, assocLookup, if_neg h2]
      refine ih ?_
      simp only [List.any_cons, Bool.or_eq_true, decide_eq_true_eq] at h
      exact h.resolve_left h2

theorem assocLookup_assocSet_ne (k k' : String) (v : JVal)
    (fs : List (String × JVal)) (h : k ≠ k') :
    assocLookup k (assocSet k' v fs) = assocLookup k fs := by
  simp only [assocSet]
  by_cases hany : (fs.any (fun kv => kv.1 = k')) = true
  · rw [if_pos hany]; exact assocLookup_map_set_ne k k' v fs h
  · rw [if_neg hany]; exact assocLookup_append_ne k k' v fs h

theorem assocLookup_assocSet_self (k : String) (v : JVal)
    (fs : List (String × JVal)) :
    assocLookup k (assocSet k v fs) = some v := by
  simp only [assocSet]
  by_cases hany : (fs.any (fun kv => kv.1 = k)) = true
  · rw [if_pos hany]; exact assocLookup_map_set_self k v fs hany
  · rw [if_neg hany]
    refine assocLookup_append_self k v fs ?_
    rw [assoc_any_eq_isSome] at hany
    cases h2 : assocLookup k fs with
    | none => rfl
    | some w => rw [h2] at hany; exact absurd rfl hany

theorem keysOk_map_set (k : String) (v : JVal) (fs : List (String × JVal)) :
    keysOk (fs.map (fun kv => if kv.1 = k then (kv.1, v) else kv)) = keysOk fs := by
  induction fs with
  | nil => rfl
  | cons kv rest ih =>
    simp only [List.map_cons, keysOk, List.all_cons]
    simp only [keysOk] at ih
    by_cases h2 : kv.1 = k
    · rw [if_pos h2, ih]
    · rw [if_neg h2, ih]

theorem keysOk_assocSet (k : String) (v : JVal) (fs : List (String × JVal))
    (hk : fieldnames.contains k = true) :
    keysOk (assocSet k v fs) = keysOk fs := by
  simp only [assocSet]
  by_cases hany : (fs.any (fun kv => kv.1 = k)) = true
  · rw [if_pos hany]; exact keysOk_map_set k v fs
  · rw [if_neg hany]
    simp only [keysOk, List.all_append, List.all_cons, List.all_nil, Bool.and_true]
    rw [show (fieldnames.contains (k, v).1) = true from hk, Bool.and_true]

/-! ### Sink counting lemmas -/

theorem recordCount_append (a b : List CsvLine) :
    recordCount (a ++ b) = recordCount a + recordCount b := by
  simp [recordCount, List.filter_append]

theorem headerCount_append (a b : List CsvLine) :
    headerCount (a ++ b) = headerCount a + headerCount b := by
  simp [headerCount, List.filter_append]

theorem recordCount_csvBase (file : Option (List CsvLine)) :
    recordCount (csvBase file) = recordsOf file := by
  cases file <;> rfl

theorem catchValueError_file (file : Option (List CsvLine)) (e : PyErr) :
    (catchValueError file e).file = file := by
  simp only [catchValueError]; split <;> rfl

theorem catchValueError_debug (file : Option (List CsvLine)) (e : PyErr) :
    (catchValueError file e).debugLogs = 0 := by
  simp only [catchValueError]; split <;> rfl

/-! ### The `on_message` case analysis -/

theorem on_message_jobj (file : Option (List CsvLine))
    (fs : List (String × JVal)) :
    on_message file (Except.ok (JTop.jobj fs)) =
      if (assocLookup "matchPrice" fs).isSome &&
          (assocLookup "matchQtty" fs).isSome then
        messageTryBody file (JTop.jobj fs)
      else ⟨file, 0, 0, none⟩ := by
  simp only [on_message, pyContains, assoc_any_eq_isSome]
  cases h1 : (assocLookup "matchPrice" fs).isSome with
  | false => simp
  | true =>
    cases h2 : (assocLookup "matchQtty" fs).isSome with
    | false => simp
    | true => simp

theorem on_message_records (file : Option (List CsvLine))
    (d : Except PyErr JTop) :
    recordsOf (on_message file d).file =
      recordsOf file + (if validTick d then 1 else 0) := by
  match d with
  | Except.error e => simp [on_message, validTick]
  | Except.ok (JTop.jtnum q) => simp [on_message, pyContains, validTick]
  | Except.ok (JTop.jtbool b) => simp [on_message, pyContains, validTick]
  | Except.ok JTop.jtnull => simp [on_message, pyContains, validTick]
  | Except.ok (JTop.jtstr s) =>
    simp only [on_message, pyContains, validTick, if_false]
    cases occursInChars "matchPrice".toList s.toList with
    | false => simp
    | true =>
      cases occursInChars "matchQtty".toList s.toList with
      | false => simp
      | true => simp [messageTryBody, pyGetItemStr, catchValueError]
  | Except.ok (JTop.jtarr xs) =>
    simp only [on_message, pyContains, validTick, if_false]
    cases xs.contains (JVal.jstr "matchPrice") with
    | false => simp
    | true =>
      cases xs.contains (JVal.jstr "matchQtty") with
      | false => simp
      | true => simp [messageTryBody, pyGetItemStr, catchValueError]
  | Except.ok (JTop.jobj fs) =>
    rw [on_message_jobj]
    cases h1 : assocLookup "matchPrice" fs with
    | none => simp [validTick, h1]
    | some v1 =>
      cases h2 : assocLookup "matchQtty" fs with
      | none => simp [validTick, h1, h2]
      | some v2 =>
        simp only [Option.isSome_some, Bool.and_self, if_true]
        simp only [messageTryBody, pyGetItemStr, h1]
        cases hf1 : pyFloat v1 with
        | error e =>
          simp [validTick, h1, h2, hf1, catchValueError_file]
        | ok q1 =>
          simp only [pySetItemStr]
          have h2b : assocLookup "matchQtty"
              (assocSet "matchPrice" (JVal.jnum q1) fs) = some v2 := by
            rw [assocLookup_assocSet_ne _ _ _ _ (by decide)]; exact h2
          simp only [pyGetItemStr, h2b]
          cases hf2 : pyFloat v2 with
          | error e =>
            simp [validTick, h1, h2, hf1, hf2, catchValueError_file]
          | ok q2 =>
            simp only [pySetItemStr, append_tick_to_csv]
            cases hk : keysOk (assocSet "matchQtty" (JVal.jnum q2)
                (assocSet "matchPrice" (JVal.jnum q1) fs)) with
            | false =>
              have hv : validTick (Except.ok (JTop.jobj fs)) = false := by
                simp [validTick, h1, h2, hf1, hf2, hk]
              rw [hv]
              simp only [if_false, Nat.add_zero, catchValueError,
                reduceCtorEq, if_neg]
              show recordsOf (some (csvBase file)) = recordsOf file
              simp only [recordsOf, Option.getD_some]
              exact recordCount_csvBase file
            | true =>
              have hv : validTick (Except.ok (JTop.jobj fs)) = true := by
                simp [validTick, h1, h2, hf1, hf2, hk]
              rw [hv]
              simp only [if_true]
              show recordsOf (some (csvBase file ++ [rowOf _])) = recordsOf file + 1
              simp only [recordsOf, Option.getD_some]
              rw [recordCount_append, recordCount_csvBase]
              rfl

theorem pyFloat_safe (v : JVal) (h : floatSafe v = true) :
    pyFloat v = Except.error PyErr.valueError ∨ ∃ q, pyFloat v = Except.ok q := by
  cases v with
  | jstr s =>
    simp only [pyFloat]
    cases parsePyFloat s with
    | none => exact Or.inl rfl
    | some q => exact Or.inr ⟨q, rfl⟩
  | jnum q => exact Or.inr ⟨q, rfl⟩
  | jbool b => exact Or.inr ⟨if b then 1 else 0, rfl⟩
  | jnull => exact absurd h (by simp [floatSafe])
  | jlist => exact absurd h (by simp [floatSafe])

/-! ### Claims about `on_message` -/

/-- C2 counterexample: a payload that is not decodable JSON makes
`json.loads` raise outside the `try`, and the exception escapes the
callback — refuting "no exception escapes the callback whatever the payload
bytes are". -/
theorem C2_counterexample :
    ¬((on_message (some [CsvLine.header])
        (Except.error PyErr.jsonDecodeError)).raised = none) := by decide

/-- C2 (amended): if the payload decodes to a JSON object whose
`matchPrice`/`matchQtty` values (when bound) are strings, numbers or
booleans, then no exception escapes the callback and it either appends
exactly one record (logging it at debug level) or drops the message; for
undecodable payloads, non-object payloads, or null/container field values
an exception can escape. -/
theorem C2_no_escape (file : Option (List CsvLine)) (fs : List (String × JVal))
    (hp : optFloatSafe (assocLookup "matchPrice" fs) = true)
    (hq : optFloatSafe (assocLookup "matchQtty" fs) = true) :
    (on_message file (Except.ok (JTop.jobj fs))).raised = none ∧
    ((recordsOf (on_message file (Except.ok (JTop.jobj fs))).file =
        recordsOf file + 1 ∧
      (on_message file (Except.ok (JTop.jobj fs))).debugLogs = 1) ∨
     (recordsOf (on_message file (Except.ok (JTop.jobj fs))).file =
        recordsOf file ∧
      (on_message file (Except.ok (JTop.jobj fs))).debugLogs = 0)) := by
  rw [on_message_jobj]
  cases h1 : assocLookup "matchPrice" fs with
  | none => simp
  | some v1 =>
    cases h2 : assocLookup "matchQtty" fs with
    | none => simp
    | some v2 =>
      simp only [Option.isSome_some, Bool.and_self, if_true]
      rw [h1] at hp
      rw [h2] at hq
      simp only [optFloatSafe] at hp hq
      simp only [messageTryBody, pyGetItemStr, h1]
      rcases pyFloat_safe v1 hp with hf1 | ⟨q1, hf1⟩
      · rw [hf1]
        exact ⟨rfl, Or.inr ⟨rfl, rfl⟩⟩
      · rw [hf1]
        simp only [pySetItemStr]
        have h2b : assocLookup "matchQtty"
            (assocSet "matchPrice" (JVal.jnum q1) fs) = some v2 := by
          rw [assocLookup_assocSet_ne _ _ _ _ (by decide)]; exact h2
        simp only [pyGetItemStr, h2b]
        rcases pyFloat_safe v2 hq with hf2 | ⟨q2, hf2⟩
        · rw [hf2]
          exact ⟨rfl, Or.inr ⟨rfl, rfl⟩⟩
        · rw [hf2]
          simp only [pySetItemStr, append_tick_to_csv]
          cases hk : keysOk (assocSet "matchQtty" (JVal.jnum q2)
              (assocSet "matchPrice" (JVal.jnum q1) fs)) with
          | false =>
            simp only [Bool.false_eq_true, if_false]
            refine ⟨rfl, Or.inr ⟨?_, rfl⟩⟩
            show recordsOf (some (csvBase file)) = recordsOf file
            simp only [recordsOf, Option.getD_some]
            exact recordCount_csvBase file
          | true =>
            simp only [if_true]
            refine ⟨by trivial, Or.inl ⟨?_, by trivial⟩⟩
            show recordsOf (some (csvBase file ++ [rowOf _])) = recordsOf file + 1
            simp only [recordsOf, Option.getD_some]
            rw [recordCount_append, recordCount_csvBase]
            rfl

/-- Witness for C2 at a concrete dropped-but-contained message: the price
string "N/A" fails coercion, the error is caught, nothing escapes. -/
theorem C2_no_escape_witness :
    (on_message (some [])
      (Except.ok (JTop.jobj [("matchPrice", JVal.jstr "N/A"),
        ("matchQtty", JVal.jnum (mkRat 2 1))]))).raised = none :=
  (C2_no_escape (some [])
    [("matchPrice", JVal.jstr "N/A"), ("matchQtty", JVal.jnum (mkRat 2 1))]
    (by decide) (by decide)).1

/-- C3 counterexample: a payload missing both fields is dropped silently —
the sink is untouched but zero (not one) error-level log entries are
produced. -/
theorem C3_counterexample :
    (on_message (some [CsvLine.header])
        (Except.ok (JTop.jobj []))).file = some [CsvLine.header] ∧
    ¬((on_message (some [CsvLine.header])
        (Except.ok (JTop.jobj []))).errorLogs = 1) := by decide

/-- C3 (amended): a message whose decoded object lacks `matchPrice` or
`matchQtty` is skipped with no sink write and NO log entry at all (the
error-level entry only accompanies a caught `ValueError`); and a record is
accepted into the sink only if both fields are present and coerce to
numeric type. -/
theorem C3_missing_field (file : Option (List CsvLine))
    (fs : List (String × JVal))
    (h : assocLookup "matchPrice" fs = none ∨
         assocLookup "matchQtty" fs = none) :
    on_message file (Except.ok (JTop.jobj fs)) = ⟨file, 0, 0, none⟩ ∧
    ∀ (f2 : Option (List CsvLine)) (d : Except PyErr JTop),
      recordsOf (on_message f2 d).file ≠ recordsOf f2 →
      ∃ fs2 v1 q1 v2 q2, d = Except.ok (JTop.jobj fs2) ∧
        assocLookup "matchPrice" fs2 = some v1 ∧
        pyFloat v1 = Except.ok q1 ∧
        assocLookup "matchQtty" fs2 = some v2 ∧
        pyFloat v2 = Except.ok q2 := by
  constructor
  · rw [on_message_jobj]
    rcases h with h | h <;> simp [h]
  · intro f2 d hne
    have hrec := on_message_records f2 d
    by_cases hv : validTick d = true
    · match d with
      | Except.error e => exact absurd hv (by simp [validTick])
      | Except.ok (JTop.jtstr s) => exact absurd hv (by simp [validTick])
      | Except.ok (JTop.jtnum q) => exact absurd hv (by simp [validTick])
      | Except.ok (JTop.jtbool b) => exact absurd hv (by simp [validTick])
      | Except.ok JTop.jtnull => exact absurd hv (by simp [validTick])
      | Except.ok (JTop.jtarr xs) => exact absurd hv (by simp [validTick])
      | Except.ok (JTop.jobj fs2) =>
        refine ⟨fs2, ?_⟩
        cases hl1 : assocLookup "matchPrice" fs2 with
        | none =>
          rw [show validTick (Except.ok (JTop.jobj fs2)) = false by
            simp [validTick, hl1]] at hv
          exact absurd hv (by simp)
        | some v1 =>
          cases hl2 : assocLookup "matchQtty" fs2 with
          | none =>
            rw [show validTick (Except.ok (JTop.jobj fs2)) = false by
              simp [validTick, hl1, hl2]] at hv
            exact absurd hv (by simp)
          | some v2 =>
            cases hpf1 : pyFloat v1 with
            | error e =>
              rw [show validTick (Except.ok (JTop.jobj fs2)) = false by
                simp [validTick, hl1, hl2, hpf1]] at hv
              exact absurd hv (by simp)
            | ok q1 =>
              cases hpf2 : pyFloat v2 with
              | error e =>
                rw [show validTick (Except.ok (JTop.jobj fs2)) = false by
                  simp [validTick, hl1, hl2, hpf1, hpf2]] at hv
                exact absurd hv (by simp)
              | ok q2 =>
                exact ⟨v1, q1, v2, q2, rfl, rfl, hpf1, rfl, hpf2⟩
    · rw [if_neg hv, Nat.add_zero] at hrec
      exact absurd hrec hne

/-- Witness for C3 at a concrete payload missing `matchPrice`. -/
theorem C3_missing_field_witness :
    on_message (some []) (Except.ok (JTop.jobj
      [("matchQtty", JVal.jnum (mkRat 2 1))])) = ⟨some [], 0, 0, none⟩ :=
  (C3_missing_field (some []) [("matchQtty", JVal.jnum (mkRat 2 1))]
    (Or.inl (by decide))).1

/-- C4 counterexample: a payload whose `matchPrice`/`matchQtty` coerce fine
but which carries a field (`"foo"`) outside the 13 CSV fieldnames is NOT
appended — `DictWriter.writerow` raises `ValueError`, caught and logged —
refuting "exactly one row is appended with all original fields
preserved". -/
theorem C4_counterexample :
    (on_message (some [CsvLine.header]) (Except.ok (JTop.jobj
      [("matchPrice", JVal.jnum (mkRat 1 1)), ("matchQtty", JVal.jnum (mkRat 2 1)),
       ("foo", JVal.jstr "x")]))).file = some [CsvLine.header] ∧
    (on_message (some [CsvLine.header]) (Except.ok (JTop.jobj
      [("matchPrice", JVal.jnum (mkRat 1 1)), ("matchQtty", JVal.jnum (mkRat 2 1)),
       ("foo", JVal.jstr "x")]))).errorLogs = 1 := by decide

/-- C4 (amended): for a payload decoding to an object whose `matchPrice`
and `matchQtty` coerce via `float` AND all of whose keys are among the 13
CSV fieldnames, exactly one row is appended (after the header base),
`matchPrice`/`matchQtty` hold the coerced numeric values, and every other
original field is preserved unchanged. -/
theorem C4_valid_append (file : Option (List CsvLine))
    (fs : List (String × JVal)) (v1 v2 : JVal) (q1 q2 : Rat)
    (h1 : assocLookup "matchPrice" fs = some v1)
    (hf1 : pyFloat v1 = Except.ok q1)
    (h2 : assocLookup "matchQtty" fs = some v2)
    (hf2 : pyFloat v2 = Except.ok q2)
    (hk : keysOk fs = true) :
    on_message file (Except.ok (JTop.jobj fs)) =
      ⟨some (csvBase file ++ [rowOf (assocSet "matchQtty" (JVal.jnum q2)
          (assocSet "matchPrice" (JVal.jnum q1) fs))]), 0, 1, none⟩ ∧
    assocLookup "matchPrice" (assocSet "matchQtty" (JVal.jnum q2)
        (assocSet "matchPrice" (JVal.jnum q1) fs)) = some (JVal.jnum q1) ∧
    assocLookup "matchQtty" (assocSet "matchQtty" (JVal.jnum q2)
        (assocSet "matchPrice" (JVal.jnum q1) fs)) = some (JVal.jnum q2) ∧
    (∀ k, ¬(k = "matchPrice") → ¬(k = "matchQtty") →
      assocLookup k (assocSet "matchQtty" (JVal.jnum q2)
        (assocSet "matchPrice" (JVal.jnum q1) fs)) = assocLookup k fs) := by
  have hk2 : keysOk (assocSet "matchQtty" (JVal.jnum q2)
      (assocSet "matchPrice" (JVal.jnum q1) fs)) = true := by
    rw [keysOk_assocSet _ _ _ (by decide), keysOk_assocSet _ _ _ (by decide)]
    exact hk
  refine ⟨?_, ?_, ?_, ?_⟩
  · rw [on_message_jobj]
    simp only [h1, h2, Option.isSome_some, Bool.and_self, if_true]
    simp only [messageTryBody, pyGetItemStr, h1, hf1, pySetItemStr]
    have h2b : assocLookup "matchQtty"
        (assocSet "matchPrice" (JVal.jnum q1) fs) = some v2 := by
      rw [assocLookup_assocSet_ne _ _ _ _ (by decide)]; exact h2
    simp only [pyGetItemStr, h2b, hf2, pySetItemStr, append_tick_to_csv,
      hk2, if_true]
  · rw [assocLookup_assocSet_ne _ _ _ _ (by decide)]
    exact assocLookup_assocSet_self _ _ _
  · exact assocLookup_assocSet_self _ _ _
  · intro k hka hkb
    rw [assocLookup_assocSet_ne _ _ _ _ hkb, assocLookup_assocSet_ne _ _ _ _ hka]

/-- Witness for C4 at a concrete valid tick. -/
theorem C4_valid_append_witness :
    on_message none (Except.ok (JTop.jobj
      [("symbol", JVal.jstr "VNM"), ("matchPrice", JVal.jstr "86.5"),
       ("matchQtty", JVal.jnum (mkRat 100 1))])) =
    ⟨some (csvBase none ++ [rowOf (assocSet "matchQtty"
        (JVal.jnum (mkRat 100 1)) (assocSet "matchPrice"
        (JVal.jnum (mkRat 173 2))
        [("symbol", JVal.jstr "VNM"), ("matchPrice", JVal.jstr "86.5"),
         ("matchQtty", JVal.jnum (mkRat 100 1))]))]), 0, 1, none⟩ :=
  (C4_valid_append none
    [("symbol", JVal.jstr "VNM"), ("matchPrice", JVal.jstr "86.5"),
     ("matchQtty", JVal.jnum (mkRat 100 1))]
    (JVal.jstr "86.5") (JVal.jnum (mkRat 100 1)) (mkRat 173 2) (mkRat 100 1)
    (by decide) (by rfl) (by decide) (by rfl) (by decide)).1

/-! ### Claims about the CSV sink -/

theorem appendSeq_some (ds : List (List (String × JVal))) :
    ∀ ls : List CsvLine, ∃ ext, appendSeq ds (some ls) = some (ls ++ ext) ∧
      headerCount ext = 0 := by
  induction ds with
  | nil => exact fun ls => ⟨[], by simp [appendSeq], rfl⟩
  | cons d rest ih =>
    intro ls
    have hstep : appendSeq (d :: rest) (some ls) =
        appendSeq rest (some (append_tick_to_csv d (some ls)).1) := rfl
    by_cases hd : keysOk d = true
    · obtain ⟨ext, hext, hhc⟩ := ih (ls ++ [rowOf d])
      refine ⟨rowOf d :: ext, ?_, ?_⟩
      · rw [hstep, show (append_tick_to_csv d (some ls)).1 = ls ++ [rowOf d] by
          simp [append_tick_to_csv, hd, csvBase], hext, List.append_assoc]
        rfl
      · show headerCount (rowOf d :: ext) = 0
        have : headerCount (rowOf d :: ext) = headerCount ext := by
          simp [headerCount, rowOf, isRecordLine, List.filter]
        rw [this, hhc]
    · obtain ⟨ext, hext, hhc⟩ := ih ls
      refine ⟨ext, ?_, hhc⟩
      rw [hstep, show (append_tick_to_csv d (some ls)).1 = ls by
        simp [append_tick_to_csv, hd, csvBase], hext]

/-- C7 counterexample: an append call whose dict has a key outside the
fieldnames appends no record row at all (it raises `ValueError`), refuting
"every subsequent append call appends exactly one record row". -/
theorem C7_counterexample :
    ¬(recordCount (append_tick_to_csv [("foo", JVal.jstr "x")]
        (some [CsvLine.header])).1 = recordCount [CsvLine.header] + 1) := by
  decide

/-- C7 (amended): for tick dicts whose keys all lie in the 13 fieldnames,
an append to a non-existent file creates it with the header once, before
the record row, and an append to an existing file appends exactly the one
record row; over any sequence of appends started on a non-existent file
(including appends of invalid dicts) the header is written exactly once, at
the front, and never rewritten. -/
theorem C7_header_once :
    (∀ d, keysOk d = true →
      append_tick_to_csv d none = ([CsvLine.header, rowOf d], none)) ∧
    (∀ d ls, keysOk d = true →
      append_tick_to_csv d (some ls) = (ls ++ [rowOf d], none)) ∧
    (∀ d ds, ∃ t, appendSeq (d :: ds) none = some (CsvLine.header :: t) ∧
      headerCount t = 0) := by
  refine ⟨?_, ?_, ?_⟩
  · intro d hd; simp [append_tick_to_csv, hd, csvBase]
  · intro d ls hd; simp [append_tick_to_csv, hd, csvBase]
  · intro d ds
    have hstep : appendSeq (d :: ds) none =
        appendSeq ds (some (append_tick_to_csv d none).1) := rfl
    by_cases hd : keysOk d = true
    · obtain ⟨ext, hext, hhc⟩ := appendSeq_some ds [CsvLine.header, rowOf d]
      refine ⟨rowOf d :: ext, ?_, ?_⟩
      · rw [hstep, show (append_tick_to_csv d none).1 =
            [CsvLine.header, rowOf d] by
          simp [append_tick_to_csv, hd, csvBase], hext]
        rfl
      · show headerCount (rowOf d :: ext) = 0
        have : headerCount (rowOf d :: ext) = headerCount ext := by
          simp [headerCount, rowOf, isRecordLine, List.filter]
        rw [this, hhc]
    · obtain ⟨ext, hext, hhc⟩ := appendSeq_some ds [CsvLine.header]
      refine ⟨ext, ?_, hhc⟩
      rw [hstep, show (append_tick_to_csv d none).1 = [CsvLine.header] by
        simp [append_tick_to_csv, hd, csvBase], hext]
      rfl

/-- Witness for C7 at a concrete valid tick dict. -/
theorem C7_header_once_witness :
    append_tick_to_csv [("symbol", JVal.jstr "VNM")] none =
      ([CsvLine.header, rowOf [("symbol", JVal.jstr "VNM")]], none) :=
  C7_header_once.1 [("symbol", JVal.jstr "VNM")] (by decide)

/-! ## `MQTTClient.on_connect` -/

/-- Observable outcome of one `on_connect` invocation: the `subscribe`
calls made (each one the list of (topic, qos) pairs passed in that call)
and the log entries. -/
structure ConnectResult where
  subscribeCalls : List (List (String × Nat))
  infoLogs : Nat
  errorLogs : Nat
deriving DecidableEq, Repr

/-- Model of `MQTTClient.on_connect` of stream.py (lines 82-88): on return code 0,
log and issue one `subscribe` call for the whole topic tuple, each topic
with `SubscribeOptions(qos=2)`; otherwise log the failure. -/
def on_connect_stream (topics : List String) (rc : Nat) : ConnectResult :=
  if rc = 0 then ⟨[topics.map (fun t => (t, 2))], 1, 0⟩
  else ⟨[], 0, 1⟩

/-- Model of `MQTTClient.on_connect` of test_cli.py (lines 150-156): the same, but
the success branch additionally requires `client.is_connected()`. -/
def on_connect_cli (topics : List String) (rc : Nat)
    (isConnected : Bool) : ConnectResult :=
  if rc = 0 ∧ isConnected = true then ⟨[topics.map (fun t => (t, 2))], 1, 0⟩
  else ⟨[], 0, 1⟩

/-- C5: on a success acknowledgment (code 0, client connected) the
callback issues exactly one subscribe call covering all configured topics,
each at QoS 2, and logs no error; on a non-zero code it logs the failure
and issues no subscribe call.  Stated for both copies of the callback
(stream.py, where code 0 suffices, and test_cli.py, where the transport
must also report the client connected). -/
theorem C5_on_connect (topics : List String) (rc : Nat) (conn : Bool) :
    (rc = 0 →
      on_connect_stream topics rc = ⟨[topics.map (fun t => (t, 2))], 1, 0⟩) ∧
    (rc ≠ 0 → on_connect_stream topics rc = ⟨[], 0, 1⟩) ∧
    (rc = 0 → conn = true →
      on_connect_cli topics rc conn = ⟨[topics.map (fun t => (t, 2))], 1, 0⟩) ∧
    (rc ≠ 0 → on_connect_cli topics rc conn = ⟨[], 0, 1⟩) := by
  refine ⟨fun h => ?_, fun h => ?_, fun h hc => ?_, fun h => ?_⟩
  · simp [on_connect_stream, h]
  · simp [on_connect_stream, h]
  · simp [on_connect_cli, h, hc]
  · simp [on_connect_cli, h]

/-- Witness for C5 at a concrete topic list and both return codes. -/
theorem C5_on_connect_witness :
    on_connect_stream ["plaintext/quotes/stock/tick/+"] 0 =
      ⟨[[("plaintext/quotes/stock/tick/+", 2)]], 1, 0⟩ ∧
    on_connect_cli ["plaintext/quotes/stock/tick/+"] 5 true = ⟨[], 0, 1⟩ :=
  ⟨(C5_on_connect ["plaintext/quotes/stock/tick/+"] 0 true).1 rfl,
   (C5_on_connect ["plaintext/quotes/stock/tick/+"] 5 true).2.2.2 (by decide)⟩

/-! ## Authentication (`Auth._get_token`, `dnse_auth`) -/

/-- The auth collaborator's HTTP response, reduced to what the code
inspects: the status code and the token in the body. -/
structure HttpResponse where
  status : Nat
  token : String
deriving DecidableEq, Repr

/-- Model of `Auth._get_token` of test_cli.py (lines 76-94): one request; on 200
return the token; otherwise `response.raise_for_status()`, which raises
`HTTPError` only for the client-error and server-error ranges (status
400-599) and is a no-op for any other status — in which case the function
falls through and returns `None`. -/
def get_token (resp : HttpResponse) : Except PyErr (Option String) :=
  if resp.status = 200 then Except.ok (some resp.token)
  else if 400 ≤ resp.status ∧ resp.status < 600 then
    Except.error (PyErr.httpError resp.status)
  else Except.ok none

/-- Model of `dnse_auth` of stream.py (lines 35-42): one request; on 200 return the
token; on anything else fall off the function, returning `None` — it never
raises. -/
def dnse_auth (resp : HttpResponse) : Option String :=
  if resp.status = 200 then some resp.token else none

/-- C8 counterexample: a 500 response makes `dnse_auth` (stream.py) return
`None` — no error is raised — refuting "for every non-200 status an error
is raised rather than a None being returned"; likewise a 204 makes
`Auth._get_token` (test_cli.py) return `None` because `raise_for_status`
only raises at status ≥ 400. -/
theorem C8_counterexample :
    dnse_auth ⟨500, "tok"⟩ = none ∧
    get_token ⟨204, "tok"⟩ = Except.ok none := ⟨rfl, rfl⟩

/-- C8 (amended): authentication is a single request with no retry; in
test_cli.py a status in the 400-599 error ranges raises `HTTPError`
immediately while any other non-200 status (1xx-3xx, or ≥ 600) returns
`None`; in stream.py every non-200 status returns `None` without
raising. -/
theorem C8_auth_failure (resp : HttpResponse) :
    (resp.status = 200 →
      get_token resp = Except.ok (some resp.token) ∧
      dnse_auth resp = some resp.token) ∧
    (400 ≤ resp.status → resp.status < 600 →
      get_token resp = Except.error (PyErr.httpError resp.status)) ∧
    (resp.status ≠ 200 → dnse_auth resp = none) ∧
    (resp.status ≠ 200 → ¬(400 ≤ resp.status ∧ resp.status < 600) →
      get_token resp = Except.ok none) := by
  refine ⟨fun h => ⟨?_, ?_⟩, fun h h2 => ?_, fun h => ?_, fun h h2 => ?_⟩
  · simp [get_token, h]
  · simp [dnse_auth, h]
  · have h3 : resp.status ≠ 200 := by omega
    simp [get_token, h3, h, h2]
  · simp [dnse_auth, h]
  · simp [get_token, h, h2]

/-- Witness for C8 at concrete 200 and 401 responses. -/
theorem C8_auth_failure_witness :
    get_token ⟨200, "tok"⟩ = Except.ok (some "tok") ∧
    get_token ⟨401, "tok"⟩ = Except.error (PyErr.httpError 401) ∧
    get_token ⟨999, "tok"⟩ = Except.ok none :=
  ⟨((C8_auth_failure ⟨200, "tok"⟩).1 rfl).1,
   (C8_auth_failure ⟨401, "tok"⟩).2.1 (by decide) (by decide),
   (C8_auth_failure ⟨999, "tok"⟩).2.2.2 (by decide) (by decide)⟩

/-! ## `run` topics validation -/

/-- A Python literal as classified by the `run` checks: a string, some
other scalar, or opaque non-string data inside a list. -/
inductive PyScalar where
  | pstr (s : String)
  | pint (n : Int)
  | pnone
  | pother
deriving DecidableEq, Repr

/-- Possible outcomes of `ast.literal_eval` on the topics string: a list
literal, a non-list literal, or a `ValueError`/`SyntaxError`. -/
inductive LitResult where
  | plist (xs : List PyScalar)
  | other (v : PyScalar)
  | raises
deriving DecidableEq, Repr

/-- The `topics` argument of `run`: either a string to be parsed or an
already-iterable collection. -/
inductive TopicsArg where
  | fromString (s : String)
  | fromList (xs : List PyScalar)
deriving DecidableEq, Repr

def isStr : PyScalar → Bool
  | PyScalar.pstr _ => true
  | _ => false

def strVal : PyScalar → String
  | PyScalar.pstr s => s
  | _ => ""

/-- Outcome of the topics-validation prefix of `run`: the parsed topic
tuple or the raised error, and whether execution reached the
`Config(...)` construction / `connect_mqtt()` call. -/
structure RunOutcome where
  result : Except PyErr (List String)
  configConstructed : Bool
  connectAttempted : Bool
deriving Repr

/-- The topics handling of `run` (test_cli.py lines 195-217), with
`ast.literal_eval` supplied as the collaborator `litEval`.  A string
argument must literal-eval to a list — a non-list literal raises
`ValueError` inside the `try` ("Topics should be a list of strings."),
which the `except (ValueError, SyntaxError)` clause re-raises as
`ValueError` ("Failed to parse topics"), as it does parse errors.  Then
every element must be a string, else `ValueError` ("All topics must be
strings.").  Only after both checks does `run` build the `Config` and
connect. -/
def run (litEval : String → LitResult) (topics : TopicsArg) : RunOutcome :=
  let parsed : Except PyErr (List PyScalar) :=
    match topics with
    | TopicsArg.fromString s =>
      match litEval s with
      | LitResult.plist xs => Except.ok xs
      | LitResult.other _ => Except.error PyErr.valueError
      | LitResult.raises => Except.error PyErr.valueError
    | TopicsArg.fromList xs => Except.ok xs
  match parsed with
  | Except.error e => ⟨Except.error e, false, false⟩
  | Except.ok xs =>
    if xs.all isStr then ⟨Except.ok (xs.map strVal), true, true⟩
    else ⟨Except.error PyErr.valueError, false, false⟩

/-- C9: a string topics argument raises `ValueError` before the `Config`
is constructed or any connection attempted unless it literal-evals to a
list; and a topics collection containing a non-string element raises
`ValueError` ("All topics must be strings."). -/
theorem C9_run_topics (litEval : String → LitResult) (s : String)
    (xs : List PyScalar) :
    ((∀ ys, litEval s ≠ LitResult.plist ys) →
      (run litEval (TopicsArg.fromString s)).result =
        Except.error PyErr.valueError ∧
      (run litEval (TopicsArg.fromString s)).configConstructed = false ∧
      (run litEval (TopicsArg.fromString s)).connectAttempted = false) ∧
    ((∃ x ∈ xs, isStr x = false) →
      (run litEval (TopicsArg.fromList xs)).result =
        Except.error PyErr.valueError ∧
      (run litEval (TopicsArg.fromList xs)).configConstructed = false ∧
      (run litEval (TopicsArg.fromList xs)).connectAttempted = false) := by
  constructor
  · intro h
    cases hl : litEval s with
    | plist ys => exact absurd hl (h ys)
    | other v => exact ⟨by simp [run, hl], by simp [run, hl], by simp [run, hl]⟩
    | raises => exact ⟨by simp [run, hl], by simp [run, hl], by simp [run, hl]⟩
  · rintro ⟨x, hx, hxs⟩
    have hall : xs.all isStr = false := by
      cases hv : xs.all isStr with
      | false => rfl
      | true => rw [List.all_eq_true] at hv; rw [hv x hx] at hxs; cases hxs
    exact ⟨by simp [run, hall], by simp [run, hall], by simp [run, hall]⟩

/-- Witness for C9: a topics string on which `literal_eval` raises, and a
list holding an integer. -/
theorem C9_run_topics_witness :
    (run (fun _ => LitResult.raises) (TopicsArg.fromString "oops")).result =
      Except.error PyErr.valueError ∧
    (run (fun _ => LitResult.raises)
      (TopicsArg.fromList [PyScalar.pint 1])).configConstructed = false :=
  ⟨((C9_run_topics (fun _ => LitResult.raises) "oops" [PyScalar.pint 1]).1
      (fun ys h => by cases h)).1,
   ((C9_run_topics (fun _ => LitResult.raises) "oops" [PyScalar.pint 1]).2
      ⟨PyScalar.pint 1, by decide, by decide⟩).2.1⟩

/-! ## `yaml_creds` -/

/-- A credentials file as `yaml_creds` can observe it: absent, not
parseable as YAML, parsed to a non-dict value, or parsed to a dict. -/
inductive YamlDoc where
  | missing
  | unparseable
  | nonDict
  | dict (entries : List (String × PyScalar))
deriving DecidableEq, Repr

/-- The exceptions `yaml_creds` can raise. -/
inductive CredErr where
  | fileNotFoundError
  | valueError
  | keyError
deriving DecidableEq, Repr

/-- Model of `yaml_creds` (test_cli.py lines 27-54): `open` raises
`FileNotFoundError` when absent (re-raised as `FileNotFoundError`);
`yaml.safe_load` errors are re-raised as `ValueError`; a parsed non-dict
raises `ValueError` (not caught by the handlers, so it propagates as is);
`creds['usr']` / `creds['pwd']` raise `KeyError` when absent (re-raised as
`KeyError`); otherwise both values are returned. -/
def yaml_creds : YamlDoc → Except CredErr (PyScalar × PyScalar)
  | YamlDoc.missing => Except.error CredErr.fileNotFoundError
  | YamlDoc.unparseable => Except.error CredErr.valueError
  | YamlDoc.nonDict => Except.error CredErr.valueError
  | YamlDoc.dict es =>
    match assocLookup "usr" es with
    | none => Except.error CredErr.keyError
    | some u =>
      match assocLookup "pwd" es with
      | none => Except.error CredErr.keyError
      | some p => Except.ok (u, p)

/-- C10: `yaml_creds` either returns both credentials stored under `usr`
and `pwd`, or raises exactly `FileNotFoundError` (file absent),
`ValueError` (unparseable YAML or non-dict top level), or `KeyError`
(missing `usr` or `pwd` key); it never returns partial credentials. -/
theorem C10_yaml_creds (doc : YamlDoc) :
    (yaml_creds doc = Except.error CredErr.fileNotFoundError ↔
      doc = YamlDoc.missing) ∧
    (yaml_creds doc = Except.error CredErr.valueError ↔
      (doc = YamlDoc.unparseable ∨ doc = YamlDoc.nonDict)) ∧
    (∀ es, doc = YamlDoc.dict es →
      ((yaml_creds doc = Except.error CredErr.keyError ↔
        (assocLookup "usr" es = none ∨ assocLookup "pwd" es = none)) ∧
       (∀ u p, assocLookup "usr" es = some u → assocLookup "pwd" es = some p →
         yaml_creds doc = Except.ok (u, p)))) := by
  refine ⟨?_, ?_, ?_⟩
  · cases doc with
    | missing => simp [yaml_creds]
    | unparseable => simp [yaml_creds]
    | nonDict => simp [yaml_creds]
    | dict es =>
      simp only [yaml_creds]
      cases assocLookup "usr" es with
      | none => simp
      | some u =>
        cases assocLookup "pwd" es with
        | none => simp
        | some p => simp
  · cases doc with
    | missing => simp [yaml_creds]
    | unparseable => simp [yaml_creds]
    | nonDict => simp [yaml_creds]
    | dict es =>
      simp only [yaml_creds]
      cases assocLookup "usr" es with
      | none => simp
      | some u =>
        cases assocLookup "pwd" es with
        | none => simp
        | some p => simp
  · rintro es rfl
    constructor
    · cases hu : assocLookup "usr" es with
      | none => simp [yaml_creds, hu]
      | some u =>
        cases hp : assocLookup "pwd" es with
        | none => simp [yaml_creds, hu, hp]
        | some p => simp [yaml_creds, hu, hp]
    · intro u p hu hp
      simp [yaml_creds, hu, hp]

/-- Witness for C10 at a concrete well-formed credentials file. -/
theorem C10_yaml_creds_witness :
    yaml_creds (YamlDoc.dict [("usr", PyScalar.pstr "0912345678"),
      ("pwd", PyScalar.pstr "secret")]) =
    Except.ok (PyScalar.pstr "0912345678", PyScalar.pstr "secret") :=
  ((C10_yaml_creds (YamlDoc.dict [("usr", PyScalar.pstr "0912345678"),
      ("pwd", PyScalar.pstr "secret")])).2.2 _ rfl).2
    (PyScalar.pstr "0912345678") (PyScalar.pstr "secret")
    (by decide) (by decide)

end VnstockDnse
